import Mathlib

/-!
Verification of the AERA Level 3 nightly pipeline
(`scripts/nightly-level3-pipeline.py`) against its design document.

Python floats are modelled as rationals (`ℚ`); `round(x, 4)` is modelled by
`round4`; machine-integer issues do not arise (all counts are small).
Missing JSON fields are modelled as `Option` values, with the defaulting the
code performs (`fillna`, `dict.get`, Python `or`) made explicit.
-/

namespace Aera

/-- Model of `round(x, 4)` / pandas `.round(4)`: round to 4 decimal places.
(Ties are modelled as round-half-up; the Python implementations round ties
to even, a difference visible only at exact half-ulp ties, which none of the
claims exercise.) -/
def round4 (q : ℚ) : ℚ := ((round (q * 10000) : ℤ) : ℚ) / 10000

/-- Model of `.astype(int)` on a boolean column. -/
def boolInt (b : Bool) : ℚ := if b then 1 else 0

/-- One `vulnerability_profiles` row as loaded from the store (line 172-175).
Fields that may be null in the JSON are `Option`s. -/
structure Entity where
  id : String
  organization_id : Option String := none
  county_id : Option String := none
  state_id : Option String := none
  household_size : Option ℚ := none
  medication_dependency : Option Bool := none
  insulin_dependency : Option Bool := none
  oxygen_powered_device : Option Bool := none
  mobility_limitation : Option Bool := none
  transportation_access : Option Bool := none
  financial_strain : Option Bool := none
deriving Repr, DecidableEq

/-- `calculate_risk` (lines 87-99), restated per row.
`np.clip(x.fillna(1), 1, None)` is `max (getD 1) 1`; the component is then
capped at 3.2; booleans default to `False` except transportation (default
`True`, and the term uses its negation); the sum is rounded to 4 decimals. -/
def calculate_risk (e : Entity) : ℚ :=
  let household_component := min (max (e.household_size.getD 1) 1 * (4/10)) (32/10)
  round4 (household_component
    + boolInt (e.medication_dependency.getD false) * (18/10)
    + boolInt (e.insulin_dependency.getD false) * (22/10)
    + boolInt (e.oxygen_powered_device.getD false) * (25/10)
    + boolInt (e.mobility_limitation.getD false) * (15/10)
    + boolInt (!(e.transportation_access.getD true)) * (12/10)
    + boolInt (e.financial_strain.getD false) * (14/10))

/-- Risk formula exactly as the specification words it (§4.1):
`round(min(max(hs,1)·0.4, 3.2) + 1.8·m + 2.2·i + 2.5·o + 1.5·mob
+ 1.2·(1 − t) + 1.4·f, 4)` with the §3 defaults applied first.
Used only to compare the spec's formula with `calculate_risk`. -/
def riskScoreClaim (e : Entity) : ℚ :=
  round4 (min (max (e.household_size.getD 1) 1 * (4/10)) (32/10)
    + (18/10) * boolInt (e.medication_dependency.getD false)
    + (22/10) * boolInt (e.insulin_dependency.getD false)
    + (25/10) * boolInt (e.oxygen_powered_device.getD false)
    + (15/10) * boolInt (e.mobility_limitation.getD false)
    + (12/10) * (1 - boolInt (e.transportation_access.getD true))
    + (14/10) * boolInt (e.financial_strain.getD false))

/-- `classify_drift` (lines 102-107). -/
def classify_drift (v : ℚ) : String :=
  if v > 25/100 then "ACCELERATING"
  else if v > 15/100 then "ESCALATING"
  else "STABLE"

/-- Number of KMeans clusters (line 193):
`k = max(2, min(6, int(np.sqrt(len(df))) or 2))`.
`int(np.sqrt n)` truncates toward zero, i.e. is `Nat.sqrt n`; Python `or`
falls back to 2 when the truncated square root is 0. -/
def kmeansK (n : Nat) : Nat :=
  max 2 (min 6 (if Nat.sqrt n = 0 then 2 else Nat.sqrt n))

/-- Nearest integer to `√n`, as the spec's `round(sqrt(n))` reads.
`√n` is never an exact half-integer for natural `n`, so no tie rule is
needed: round up exactly when `√n ≥ s + 1/2`, i.e. `n > s² + s`. -/
def roundSqrt (n : Nat) : Nat :=
  let s := Nat.sqrt n
  if s * s + s < n then s + 1 else s

/-- `k` as the claim words it: `clamp(round(sqrt(n)), 2, 6)`. -/
def kClaim (n : Nat) : Nat := max 2 (min 6 (roundSqrt n))

/-- `k` as amended: `clamp(floor(sqrt(n)), 2, 6)`. -/
def kAmended (n : Nat) : Nat := max 2 (min 6 (Nat.sqrt n))

/-- DBSCAN neighborhood radius (line 198): `eps=1.25`. -/
def dbscanEps : ℚ := 5/4

/-- DBSCAN `min_samples` (line 198):
`max(3, min(8, len(df) // 20 or 3))`; `//` is floor division and Python
`or` falls back to 3 when the quotient is 0. -/
def dbscanMinSamples (n : Nat) : Nat :=
  max 3 (min 8 (if n / 20 = 0 then 3 else n / 20))

/-- `min_samples` as the claim words it: `clamp(floor(n/20), 3, 8)`. -/
def minSamplesClaim (n : Nat) : Nat := max 3 (min 8 (n / 20))

/-- C1 counterexample: at population size 7 the code picks
`k = clamp(floor(sqrt 7), 2, 6) = 2`, while the claimed formula
`clamp(round(sqrt 7), 2, 6)` gives 3 (since `√7 ≈ 2.65` rounds up);
so the claim as stated is false. -/
theorem c1_k_formula_counterexample :
    kmeansK 7 = 2 ∧ kClaim 7 = 3 ∧ ¬ (∀ n, 1 ≤ n → kmeansK n = kClaim n) := by
  refine ⟨?_, ?_, fun h => ?_⟩
  · simp [kmeansK, Nat.sqrt, Nat.sqrt.iter]
  · simp [kClaim, roundSqrt, Nat.sqrt, Nat.sqrt.iter]
  · have h7 := h 7 (by norm_num)
    simp [kmeansK, kClaim, roundSqrt, Nat.sqrt, Nat.sqrt.iter] at h7

/-- C1 (amended): for every population size `n ≥ 1` the number of KMeans
clusters equals `clamp(floor(sqrt(n)), 2, 6)` (truncated, not rounded,
square root), and in particular `2 ≤ k ≤ 6`. -/
theorem c1_k_formula_amended (n : Nat) (h : 1 ≤ n) :
    kmeansK n = kAmended n ∧ 2 ≤ kmeansK n ∧ kmeansK n ≤ 6 := by
  have hs : Nat.sqrt n ≠ 0 := by
    have := Nat.sqrt_pos.mpr (show 0 < n by omega)
    omega
  unfold kmeansK kAmended
  rw [if_neg hs]
  exact ⟨rfl, Nat.le_max_left 2 _, Nat.max_le.mpr ⟨by norm_num, Nat.min_le_left 6 _⟩⟩

/-- C1 witness: at `n = 7` the amended formula is exercised concretely. -/
theorem c1_k_formula_amended_witness :
    1 ≤ 7 ∧ (kmeansK 7 = kAmended 7 ∧ 2 ≤ kmeansK 7 ∧ kmeansK 7 ≤ 6) :=
  ⟨by norm_num, c1_k_formula_amended 7 (by norm_num)⟩

/-- Spec §8 example entity: household_size 2, insulin dependency true,
oxygen-powered device false, every other field absent (so defaulted). -/
def c2ExampleEntity : Entity :=
  { id := "example", household_size := some 2,
    insulin_dependency := some true, oxygen_powered_device := some false }

/-- C2: the risk score computed by `calculate_risk` equals the specified
formula (household component `max(hs,1)·0.4` capped at 3.2, plus the six
weighted factor terms, rounded to 4 decimals) for every entity, after the
documented defaults; and the spec's example entity (household_size 2, only
insulin dependency true) scores exactly 3. -/
theorem c2_risk_score_formula :
    (∀ e : Entity, calculate_risk e = riskScoreClaim e) ∧
    calculate_risk c2ExampleEntity = 3 := by
  constructor
  · intro e
    unfold calculate_risk riskScoreClaim
    cases e.transportation_access.getD true <;> simp [boolInt]
  · norm_num [calculate_risk, c2ExampleEntity, round4, boolInt, round_eq]

/-- C5: `classify_drift` returns ACCELERATING iff `v > 0.25`, ESCALATING iff
`0.15 < v ≤ 0.25`, and STABLE iff `v ≤ 0.15`; in particular 0.30 maps to
ACCELERATING, 0.20 and 0.25 to ESCALATING, and 0.15 and 0.10 to STABLE. -/
theorem c5_classify_drift_thresholds :
    (∀ v : ℚ,
      (classify_drift v = "ACCELERATING" ↔ 25/100 < v) ∧
      (classify_drift v = "ESCALATING" ↔ 15/100 < v ∧ v ≤ 25/100) ∧
      (classify_drift v = "STABLE" ↔ v ≤ 15/100)) ∧
    classify_drift (30/100) = "ACCELERATING" ∧
    classify_drift (20/100) = "ESCALATING" ∧
    classify_drift (25/100) = "ESCALATING" ∧
    classify_drift (15/100) = "STABLE" ∧
    classify_drift (10/100) = "STABLE" := by
  refine ⟨fun v => ?_, ?_, ?_, ?_, ?_, ?_⟩
  · unfold classify_drift
    split_ifs with h1 h2
    · exact ⟨⟨fun _ => h1, fun _ => rfl⟩,
        ⟨fun hs => by simp at hs, fun hr => absurd hr.2 (by linarith)⟩,
        ⟨fun hs => by simp at hs, fun hr => by linarith⟩⟩
    · push_neg at h1
      exact ⟨⟨fun hs => by simp at hs, fun hl => by linarith⟩,
        ⟨fun _ => ⟨h2, h1⟩, fun _ => rfl⟩,
        ⟨fun hs => by simp at hs, fun hr => by linarith⟩⟩
    · push_neg at h1 h2
      exact ⟨⟨fun hs => by simp at hs, fun hl => by linarith⟩,
        ⟨fun hs => by simp at hs, fun hr => absurd hr.1 (by linarith)⟩,
        ⟨fun _ => h2, fun _ => rfl⟩⟩
  all_goals norm_num [classify_drift]

/-- C9: for every population size `n ≥ 1`, the density detector runs with
`min_samples = clamp(floor(n/20), 3, 8)` (hence between 3 and 8) and the
fixed radius `eps = 1.25`. -/
theorem c9_dbscan_parameters (n : Nat) (_h : 1 ≤ n) :
    dbscanMinSamples n = minSamplesClaim n ∧
    3 ≤ dbscanMinSamples n ∧ dbscanMinSamples n ≤ 8 ∧ dbscanEps = 5/4 := by
  unfold dbscanMinSamples minSamplesClaim
  by_cases ht : n / 20 = 0
  · rw [if_pos ht, ht]
    exact ⟨by norm_num, by norm_num, by norm_num, rfl⟩
  · rw [if_neg ht]
    exact ⟨rfl, Nat.le_max_left 3 _, Nat.max_le.mpr ⟨by norm_num, Nat.min_le_left 8 _⟩, rfl⟩

/-- C9 witness: the parameter formula at the concrete size `n = 100`. -/
theorem c9_dbscan_parameters_witness :
    1 ≤ 100 ∧ (dbscanMinSamples 100 = minSamplesClaim 100 ∧
      3 ≤ dbscanMinSamples 100 ∧ dbscanMinSamples 100 ≤ 8 ∧ dbscanEps = 5/4) :=
  ⟨by norm_num, c9_dbscan_parameters 100 (by norm_num)⟩

noncomputable section Standardizer

/-- Population mean of one feature column (`StandardScaler.mean_`).
Real numbers are used because the scale is a square root. -/
def colMean (xs : List ℝ) : ℝ := xs.sum / xs.length

/-- Population variance of one feature column (`StandardScaler.var_`,
computed with `ddof = 0`, i.e. dividing by `n`). -/
def colVar (xs : List ℝ) : ℝ := (xs.map (fun x => (x - colMean xs) ^ 2)).sum / xs.length

/-- Population standard deviation of one feature column. -/
def colStd (xs : List ℝ) : ℝ := Real.sqrt (colVar xs)

/-- The divisor `StandardScaler` actually uses: `_handle_zeros_in_scale`
replaces a zero standard deviation by 1, so constant columns are divided
by 1 instead of 0. -/
def colScale (xs : List ℝ) : ℝ := if colStd xs = 0 then 1 else colStd xs

/-- One column of `StandardScaler().fit_transform(features)` (line 191):
entrywise `(x - mean) / scale`, one output per input in order. -/
def standardizeCol (xs : List ℝ) : List ℝ :=
  xs.map (fun x => (x - colMean xs) / colScale xs)

end Standardizer

lemma colScale_ne_zero (xs : List ℝ) : colScale xs ≠ 0 := by
  unfold colScale
  by_cases hs : colStd xs = 0
  · simp [hs]
  · simp [hs]

lemma list_sum_sq_eq_zero {l : List ℝ} (hnn : ∀ x ∈ l, 0 ≤ x) (h0 : l.sum = 0) :
    ∀ x ∈ l, x = 0 := by
  induction l with
  | nil => simp
  | cons a t ih =>
    have ha : 0 ≤ a := hnn a (by simp)
    have hts : 0 ≤ t.sum := List.sum_nonneg (fun x hx => hnn x (by simp [hx]))
    simp only [List.sum_cons] at h0
    have ha0 : a = 0 := by linarith
    intro x hx
    rcases List.mem_cons.mp hx with rfl | hx
    · exact ha0
    · exact ih (fun y hy => hnn y (by simp [hy])) (by linarith) x hx

lemma sum_map_center_div (xs : List ℝ) (c d : ℝ) :
    (xs.map (fun x => (x - c) / d)).sum = (xs.sum - xs.length * c) / d := by
  induction xs with
  | nil => simp
  | cons a t ih =>
    simp only [List.map_cons, List.sum_cons, List.length_cons, ih]
    rw [div_add_div_same]
    congr 1
    push_cast
    ring

lemma sum_map_sq_div (xs : List ℝ) (c d : ℝ) :
    (xs.map (fun x => ((x - c) / d) ^ 2)).sum = (xs.map (fun x => (x - c) ^ 2)).sum / d ^ 2 := by
  induction xs with
  | nil => simp
  | cons a t ih =>
    simp only [List.map_cons, List.sum_cons, ih]
    rw [div_pow, div_add_div_same]

lemma colVar_nonneg (xs : List ℝ) : 0 ≤ colVar xs := by
  unfold colVar
  refine div_nonneg (List.sum_nonneg fun y hy => ?_) (by positivity)
  obtain ⟨x, _, rfl⟩ := List.mem_map.mp hy
  positivity

/-- C6: standardizing a nonempty feature column never divides by zero (the
divisor is nonzero by construction); the output has one entry per input, in
order, each `(x - mean) / scale`; a column with zero standard deviation
outputs exactly 0 everywhere; and a column with nonzero standard deviation
is transformed to population mean 0 and population standard deviation 1. -/
theorem c6_standardizer (xs : List ℝ) (h : xs ≠ []) :
    colScale xs ≠ 0 ∧
    (standardizeCol xs).length = xs.length ∧
    (∀ i : Nat, (standardizeCol xs)[i]?
        = (xs[i]?).map (fun x => (x - colMean xs) / colScale xs)) ∧
    (colStd xs = 0 → ∀ z ∈ standardizeCol xs, z = 0) ∧
    (colStd xs ≠ 0 →
      colMean (standardizeCol xs) = 0 ∧ colStd (standardizeCol xs) = 1) := by
  have hlenpos : 0 < (xs.length : ℝ) := by
    have := List.length_pos.mpr h
    exact_mod_cast this
  have hlen : (standardizeCol xs).length = xs.length := List.length_map _ _
  refine ⟨colScale_ne_zero xs, hlen, fun i => List.getElem?_map _ _ _, ?_, ?_⟩
  · intro h0 z hz
    have hv0 : colVar xs = 0 := by
      have hnn := colVar_nonneg xs
      have := Real.sqrt_eq_zero'.mp h0
      linarith
    have hsum0 : (xs.map (fun x => (x - colMean xs) ^ 2)).sum = 0 := by
      unfold colVar at hv0
      rcases div_eq_zero_iff.mp hv0 with hs | hnz
      · exact hs
      · exact absurd hnz (by positivity)
    obtain ⟨x, hx, rfl⟩ := List.mem_map.mp hz
    have hsq : (x - colMean xs) ^ 2 = 0 := by
      refine list_sum_sq_eq_zero (fun y hy => ?_) hsum0 _ (List.mem_map_of_mem _ hx)
      obtain ⟨w, _, rfl⟩ := List.mem_map.mp hy
      positivity
    have hx0 : x - colMean xs = 0 := by simpa using hsq
    simp [hx0]
  · intro hstd
    have hscale : colScale xs = colStd xs := if_neg hstd
    have hvne : colVar xs ≠ 0 := fun hv => hstd (by rw [colStd, hv, Real.sqrt_zero])
    have hsq : colStd xs ^ 2 = colVar xs := Real.sq_sqrt (colVar_nonneg xs)
    have hzsum : (standardizeCol xs).sum = 0 := by
      rw [standardizeCol, sum_map_center_div]
      have : xs.sum - (xs.length : ℝ) * colMean xs = 0 := by
        rw [colMean]
        field_simp
      rw [this, zero_div]
    have hmean : colMean (standardizeCol xs) = 0 := by
      rw [colMean, hzsum, zero_div]
    have hvar : colVar (standardizeCol xs) = 1 := by
      rw [colVar, hmean, hlen]
      simp only [sub_zero, standardizeCol, List.map_map, Function.comp_def]
      rw [sum_map_sq_div xs (colMean xs) (colScale xs), div_right_comm]
      rw [show (xs.map fun x => (x - colMean xs) ^ 2).sum / (xs.length : ℝ) = colVar xs from rfl]
      rw [hscale, hsq]
      exact div_self hvne
    exact ⟨hmean, by rw [colStd, hvar, Real.sqrt_one]⟩

/-- C6 witness: the column `[0, 2]` (mean 1, variance 1) standardizes with a
nonzero divisor to mean 0 and standard deviation 1. -/
theorem c6_standardizer_witness :
    colScale [(0 : ℝ), 2] ≠ 0 ∧
    colMean (standardizeCol [(0 : ℝ), 2]) = 0 ∧
    colStd (standardizeCol [(0 : ℝ), 2]) = 1 := by
  have hvar : colVar [(0 : ℝ), 2] = 1 := by
    norm_num [colVar, colMean]
  have hstd : colStd [(0 : ℝ), 2] = 1 := by
    rw [colStd, hvar, Real.sqrt_one]
  have h := c6_standardizer [(0 : ℝ), 2] (by simp)
  exact ⟨h.1, (h.2.2.2.2 (by rw [hstd]; norm_num)).1, (h.2.2.2.2 (by rw [hstd]; norm_num)).2⟩

/-- A value sitting in a pandas group-key cell: a string, or the missing
marker. `pd.DataFrame.from_records` fills absent keys with NaN, and
`groupby(..., dropna=False)` factorizes all null values (None included) to
NaN group keys, so after `reset_index()` a missing county/state/organization
surfaces as the float NaN, not as Python `None`. -/
inductive PyVal where
  | str (s : String)
  | nan
deriving Repr, DecidableEq

/-- Python truthiness of such a cell: the empty string is falsy, any other
string truthy — and NaN is a nonzero float, hence truthy. -/
def PyVal.truthy : PyVal → Bool
  | .str s => !s.isEmpty
  | .nan => true

/-- Python `a or b`. -/
def pyOr (a b : PyVal) : PyVal := if a.truthy then a else b

/-- The group-key value produced for an optional string column
(missing → NaN, see `PyVal`). -/
def groupKey : Option String → PyVal
  | some s => .str s
  | none => .nan

/-- One `region_snapshots` row as returned by the 30-day-prior select
(line 215-219: columns county_id, state_id, avg_risk_score). -/
structure PrevRow where
  county_id : PyVal
  state_id : PyVal
  avg_risk_score : Option ℚ
deriving Repr, DecidableEq

/-- Line 221: `float(r.get("avg_risk_score", 0) or 0)` — a missing value and
the falsy float 0.0 both collapse to 0. -/
def avgOrZero : Option ℚ → ℚ
  | none => 0
  | some q => if q = 0 then 0 else q

/-- Lines 220-222: the `prev_lookup` dict, keyed by `(county_id, state_id)`
only — a later row for the same key overwrites an earlier one. -/
def prevLookup (rows : List PrevRow) (county state : PyVal) : Option ℚ :=
  (rows.reverse.find? (fun r => r.county_id == county && r.state_id == state)).map
    (fun r => avgOrZero r.avg_risk_score)

/-- Line 243: `prev_lookup.get((county_id, state_id), 0.0)`. -/
def prevAvgFor (rows : List PrevRow) (county state : PyVal) : ℚ :=
  (prevLookup rows county state).getD 0

/-- Line 213: the prior snapshot date is exactly 30 days before the run
date (dates modelled as day numbers). -/
def prevSnapshotDate (today : ℤ) : ℤ := today - 30

/-- One entity row after scoring, clustering and outlier flagging
(the dataframe columns consumed by the aggregation, lines 224-236). -/
structure ScoredRow where
  id : String
  organization_id : Option String
  county_id : Option String
  state_id : Option String
  risk_score : ℚ
  kmeans_cluster : Int
  dbscan_cluster : Int
  is_outlier : Bool
deriving Repr, DecidableEq

/-- The groupby key of one row: `(county_id, state_id, organization_id)`
with `dropna=False` (missing values keep a NaN group, line 225). -/
def keyOf (r : ScoredRow) : PyVal × PyVal × PyVal :=
  (groupKey r.county_id, groupKey r.state_id, groupKey r.organization_id)

/-- Distinct group keys in order of first appearance. (pandas sorts group
keys; no claim depends on group order, only on the set of groups.) -/
def dedupKeys (seen : List (PyVal × PyVal × PyVal)) :
    List (PyVal × PyVal × PyVal) → List (PyVal × PyVal × PyVal)
  | [] => []
  | k :: ks => if seen.contains k then dedupKeys seen ks else k :: dedupKeys (k :: seen) ks

/-- Number of occurrences of `v` in `xs`. -/
def countVal (xs : List Int) (v : Int) : Nat := (xs.filter (fun w => w == v)).length

/-- `int(pd.Series.mode(s).iloc[0]) if len(s) else None` (lines 232-233):
the most frequent value; `pd.Series.mode` returns the tied maximizers in
sorted order, so `.iloc[0]` is the smallest of them. -/
def modeFirst (xs : List Int) : Option Int :=
  match xs with
  | [] => none
  | _ =>
    (((xs.dedup).filter
      (fun v => countVal xs v == ((xs.dedup).map (countVal xs)).foldr max 0)).min?)

/-- One aggregated group (the `grouped` dataframe, lines 224-236). -/
structure GroupRow where
  county_id : PyVal
  state_id : PyVal
  organization_id : PyVal
  profile_count : Nat
  avg_risk_score : ℚ
  max_risk_score : ℚ
  min_risk_score : ℚ
  anomaly_count : Nat
  kmeans_cluster : Option Int
  dbscan_cluster : Option Int
deriving Repr, DecidableEq

/-- `df.groupby(["county_id","state_id","organization_id"], dropna=False)`
with the aggregations of lines 226-234. -/
def groupRows (rows : List ScoredRow) : List GroupRow :=
  (dedupKeys [] (rows.map keyOf)).map (fun k =>
    let g := rows.filter (fun r => keyOf r == k)
    { county_id := k.1, state_id := k.2.1, organization_id := k.2.2,
      profile_count := g.length,
      avg_risk_score := (g.map (fun r => r.risk_score)).sum / (g.length : ℚ),
      max_risk_score := ((g.map (fun r => r.risk_score)).max?).getD 0,
      min_risk_score := ((g.map (fun r => r.risk_score)).min?).getD 0,
      anomaly_count := (g.filter (fun r => r.is_outlier)).length,
      kmeans_cluster := modeFirst (g.map (fun r => r.kmeans_cluster)),
      dbscan_cluster := modeFirst (g.map (fun r => r.dbscan_cluster)) })

/-- One `region_snapshots` output row (the dict built at lines 248-272). -/
structure SnapshotRow where
  snapshot_date : ℤ
  snapshot_window_days : Nat
  organization_id : PyVal
  county_id : PyVal
  state_id : PyVal
  profile_count : Nat
  avg_risk_score : ℚ
  max_risk_score : ℚ
  min_risk_score : ℚ
  risk_growth_pct : ℚ
  drift_value : ℚ
  drift_status : String
  kmeans_cluster : Option Int
  dbscan_cluster : Option Int
  anomaly_count : Nat
  projection_14d : ℚ
deriving Repr, DecidableEq

/-- The loop body of lines 239-272: default county/state with Python
`or "UNKNOWN"`, look up the prior average by (county, state), compute
drift, growth and the 14-day projection, and assemble the snapshot row. -/
def snapshotRow (prev : List PrevRow) (today : ℤ) (g : GroupRow) : SnapshotRow :=
  let county := pyOr g.county_id (PyVal.str "UNKNOWN")
  let state := pyOr g.state_id (PyVal.str "UNKNOWN")
  let avg := g.avg_risk_score
  let prevAvg := prevAvgFor prev county state
  let drift : ℚ := if prevAvg = 0 then 0 else round4 ((avg - prevAvg) / prevAvg)
  let growth := drift
  let projection := round4 (avg * (1 + growth * (1/2)))
  { snapshot_date := today,
    snapshot_window_days := 30,
    organization_id := g.organization_id,
    county_id := county,
    state_id := state,
    profile_count := g.profile_count,
    avg_risk_score := round4 avg,
    max_risk_score := round4 g.max_risk_score,
    min_risk_score := round4 g.min_risk_score,
    risk_growth_pct := growth,
    drift_value := drift,
    drift_status := classify_drift drift,
    kmeans_cluster := g.kmeans_cluster,
    dbscan_cluster := g.dbscan_cluster,
    anomaly_count := g.anomaly_count,
    projection_14d := projection }

/-- C3: for every region group, the prior average is looked up by
(county, state) only — the same value results whatever the group's
organization — from the snapshots dated exactly 30 days before the run
date; drift is 0 when the lookup misses (the default 0 prior average takes
the zero branch) or when the stored prior average is 0, and otherwise
`round((avg − prev) / prev, 4)`; `risk_growth_pct` duplicates the drift;
and `projection_14d = round(avg · (1 + drift · 0.5), 4)`. -/
theorem c3_drift_fields (prev : List PrevRow) (today : ℤ) (g : GroupRow) :
    (snapshotRow prev today g).drift_value =
      (if prevAvgFor prev (pyOr g.county_id (PyVal.str "UNKNOWN"))
          (pyOr g.state_id (PyVal.str "UNKNOWN")) = 0
       then 0
       else round4 ((g.avg_risk_score -
          prevAvgFor prev (pyOr g.county_id (PyVal.str "UNKNOWN"))
            (pyOr g.state_id (PyVal.str "UNKNOWN"))) /
          prevAvgFor prev (pyOr g.county_id (PyVal.str "UNKNOWN"))
            (pyOr g.state_id (PyVal.str "UNKNOWN")))) ∧
    (prevLookup prev (pyOr g.county_id (PyVal.str "UNKNOWN"))
        (pyOr g.state_id (PyVal.str "UNKNOWN")) = none →
      (snapshotRow prev today g).drift_value = 0) ∧
    (snapshotRow prev today g).risk_growth_pct = (snapshotRow prev today g).drift_value ∧
    (snapshotRow prev today g).projection_14d =
      round4 (g.avg_risk_score * (1 + (snapshotRow prev today g).drift_value * (1/2))) ∧
    (∀ org : PyVal,
      (snapshotRow prev today { g with organization_id := org }).drift_value =
        (snapshotRow prev today g).drift_value) ∧
    prevSnapshotDate today = today - 30 := by
  refine ⟨rfl, ?_, ?_, ?_, fun org => rfl, rfl⟩
  · intro hnone
    simp [snapshotRow, prevAvgFor, hnone]
  · simp [snapshotRow]
  · simp [snapshotRow]

/-- Concrete prior snapshot list for the C3 witness: one (county A, state B)
row 30 days back with average risk 2. -/
def c3Prev : List PrevRow :=
  [{ county_id := PyVal.str "A", state_id := PyVal.str "B", avg_risk_score := some 2 }]

/-- Concrete group for the C3 witness: county A, state B, average risk 3. -/
def c3Group : GroupRow :=
  { county_id := PyVal.str "A", state_id := PyVal.str "B",
    organization_id := PyVal.str "O", profile_count := 1,
    avg_risk_score := 3, max_risk_score := 3, min_risk_score := 3,
    anomaly_count := 0, kmeans_cluster := some 0, dbscan_cluster := some 0 }

/-- C3 witness: with prior average 2 and current average 3, the drift
fields evaluate concretely — drift 0.5, growth 0.5, projection 3.75 — as
the formulas of `c3_drift_fields` dictate. -/
theorem c3_drift_fields_witness :
    (snapshotRow c3Prev 100 c3Group).drift_value = 1/2 ∧
    (snapshotRow c3Prev 100 c3Group).risk_growth_pct = 1/2 ∧
    (snapshotRow c3Prev 100 c3Group).projection_14d = 15/4 := by
  have h := c3_drift_fields c3Prev 100 c3Group
  have hpa : prevAvgFor c3Prev (pyOr c3Group.county_id (PyVal.str "UNKNOWN"))
      (pyOr c3Group.state_id (PyVal.str "UNKNOWN")) = 2 := by decide
  have hd : (snapshotRow c3Prev 100 c3Group).drift_value = 1/2 := by
    rw [h.1, hpa]
    norm_num [round4, round_eq, c3Group]
  refine ⟨hd, ?_, ?_⟩
  · rw [h.2.2.1, hd]
  · rw [h.2.2.2.1, hd]
    norm_num [round4, round_eq, c3Group]

/-- The failing input for C4: one entity whose county_id is null in the
loaded JSON (all other keys present). -/
def c4Row : ScoredRow :=
  { id := "e1", organization_id := some "org-1", county_id := none,
    state_id := some "TX", risk_score := 3, kmeans_cluster := 0,
    dbscan_cluster := 0, is_outlier := false }

/-- C4 (code bug, evaluated at the failing input): grouping a population
whose single entity has a missing county produces one snapshot row whose
county field is the NaN group key — `row["county_id"] or "UNKNOWN"` never
fires because NaN is truthy — not the literal "UNKNOWN" the spec (and the
code's own `or "UNKNOWN"` defaulting) intend. Present string keys, and
organization_id (never defaulted), pass through unchanged. -/
theorem c4_unknown_bucketing_bug :
    ((groupRows [c4Row]).map (snapshotRow [] 0)).map (fun s => s.county_id) = [PyVal.nan] ∧
    PyVal.nan ≠ PyVal.str "UNKNOWN" ∧
    ((groupRows [c4Row]).map (snapshotRow [] 0)).map (fun s => s.state_id) =
      [PyVal.str "TX"] ∧
    ((groupRows [c4Row]).map (snapshotRow [] 0)).map (fun s => s.organization_id) =
      [PyVal.str "org-1"] := by
  refine ⟨by decide, by decide, by decide, by decide⟩

/-- One feature row of `prepare_features` (lines 110-122), with the risk
score the pipeline just recomputed for that row (the dataframe column was
overwritten at line 184 before `prepare_features` runs). -/
def prepare_features_row (e : Entity) (risk : ℚ) : List ℚ :=
  [risk,
   e.household_size.getD 1,
   boolInt (e.medication_dependency.getD false),
   boolInt (e.insulin_dependency.getD false),
   boolInt (e.oxygen_powered_device.getD false),
   boolInt (e.mobility_limitation.getD false),
   boolInt (e.transportation_access.getD true),
   boolInt (e.financial_strain.getD false)]

/-- One `model_audit_log` row (the dict built in `log_stage`,
lines 138-169; the constant model/version/feature-set columns are elided). -/
structure AuditRecord where
  stage : String
  status : String
  startedAt : ℤ
  finishedAt : ℤ
  durationMs : ℤ
  processed : Nat
  errorMessage : Option String
deriving Repr, DecidableEq

/-- The externally visible writes of one run: audit inserts that succeeded,
risk-score upserts, and snapshot upserts, plus the count of `now()` /
audit-insert attempts (`nAudit`), which indexes the clock. -/
structure Trace where
  nAudit : Nat := 0
  audits : List AuditRecord := []
  scoreWrites : List (String × ℚ) := []
  snapshotWrites : List SnapshotRow := []
deriving Repr, DecidableEq

/-- The pipeline's environment: results of the external calls (a `some`
upsert/audit result or an `error` is a raised exception carrying its
message), oracles for the three fitted sklearn models (which see the
feature matrix), the run date, and the clock. `t0` is the start-of-run
timestamp taken at line 136; `clock i` is the reading `dt.datetime.now()`
returns at the i-th `log_stage` call (timestamps in milliseconds, so the
`int(...total_seconds()*1000)` duration is plain subtraction). -/
structure Env where
  selectProfiles : Except String (List Entity)
  snapshotsAt : ℤ → Except String (List PrevRow)
  upsertProfilesRes : Option String
  upsertSnapshotsRes : Option String
  auditRes : Nat → Option String
  kmeansFit : Nat → List (List ℚ) → Except String (List Int)
  dbscanFit : ℚ → Nat → List (List ℚ) → Except String (List Int)
  isoFit : List (List ℚ) → Except String (List Bool)
  today : ℤ
  t0 : ℤ
  clock : Nat → ℤ

/-- `log_stage` (lines 138-169): build the audit row with the shared
`started_at = t0`, `finished_at = now()`, `duration_ms = finished − t0`,
then insert it; a failed insert raises (second component) and stores
nothing. -/
def logStage (env : Env) (tr : Trace) (stage status : String) (processed : Nat)
    (err : Option String) : Trace × Option String :=
  match env.auditRes tr.nAudit with
  | none =>
    ({ tr with
        nAudit := tr.nAudit + 1,
        audits := tr.audits ++
          [{ stage := stage, status := status, startedAt := env.t0,
             finishedAt := env.clock tr.nAudit,
             durationMs := env.clock tr.nAudit - env.t0,
             processed := processed, errorMessage := err }] }, none)
  | some e => ({ tr with nAudit := tr.nAudit + 1 }, some e)

/-- Sequencing inside the `try:` block: a raised exception (the `error`
constructor, tagged with the trace at that point) skips the rest. -/
def step {α β : Type} (x : Except (String × Trace) (α × Trace))
    (f : α → Trace → Except (String × Trace) (β × Trace)) :
    Except (String × Trace) (β × Trace) :=
  match x with
  | .error e => .error e
  | .ok (a, tr) => f a tr

/-- An external call that does not touch the trace. -/
def liftCall {α : Type} (x : Except String α) (tr : Trace) :
    Except (String × Trace) (α × Trace) :=
  match x with
  | .error e => .error (e, tr)
  | .ok a => .ok (a, tr)

/-- A `log_stage` call inside the `try:` block: a failed audit insert
raises into the handler. -/
def doLog (env : Env) (stage status : String) (processed : Nat) (err : Option String)
    (tr : Trace) : Except (String × Trace) (Unit × Trace) :=
  match logStage env tr stage status processed err with
  | (tr2, none) => .ok ((), tr2)
  | (tr2, some e) => .error (e, tr2)

/-- Lines 185-186: upsert the recomputed risk scores (`client.upsert`
returns immediately on an empty row list, line 61-62). -/
def doUpsertProfiles (env : Env) (rows : List (String × ℚ)) (tr : Trace) :
    Except (String × Trace) (Unit × Trace) :=
  if rows.isEmpty then .ok ((), tr)
  else
    match env.upsertProfilesRes with
    | none => .ok ((), { tr with scoreWrites := tr.scoreWrites ++ rows })
    | some e => .error (e, tr)

/-- Lines 274-278: upsert the snapshot rows. -/
def doUpsertSnapshots (env : Env) (rows : List SnapshotRow) (tr : Trace) :
    Except (String × Trace) (Unit × Trace) :=
  if rows.isEmpty then .ok ((), tr)
  else
    match env.upsertSnapshotsRes with
    | none => .ok ((), { tr with snapshotWrites := tr.snapshotWrites ++ rows })
    | some e => .error (e, tr)

/-- The dataframe columns entering the aggregation, assembled from the
loaded records and the three fitted models' outputs. -/
def mkScoredRows (records : List Entity) (km db : List Int) (outl : List Bool) :
    List ScoredRow :=
  (records.zip (km.zip (db.zip outl))).map (fun p =>
    { id := p.1.id, organization_id := p.1.organization_id,
      county_id := p.1.county_id, state_id := p.1.state_id,
      risk_score := calculate_risk p.1,
      kmeans_cluster := p.2.1, dbscan_cluster := p.2.2.1,
      is_outlier := p.2.2.2 })

/-- The `try:` block of `run` (lines 171-283): load, empty-check, score,
cluster, detect, aggregate, write — each stage logged after it succeeds;
the first raised exception aborts the rest. -/
def pipelineTry (env : Env) : Except (String × Trace) (Nat × Trace) :=
  step (liftCall env.selectProfiles {}) fun records tr =>
  if records.isEmpty then
    step (doLog env "pipeline" "SUCCESS" 0 none tr) fun _ tr2 => .ok (0, tr2)
  else
    step (doUpsertProfiles env (records.map (fun e => (e.id, calculate_risk e))) tr)
      fun _ tr2 =>
    step (doLog env "risk_score" "SUCCESS" records.length none tr2) fun _ tr3 =>
    step (liftCall (env.kmeansFit (kmeansK records.length)
        (records.map (fun e => prepare_features_row e (calculate_risk e)))) tr3)
      fun km tr4 =>
    step (doLog env "kmeans" "SUCCESS" records.length none tr4) fun _ tr5 =>
    step (liftCall (env.dbscanFit dbscanEps (dbscanMinSamples records.length)
        (records.map (fun e => prepare_features_row e (calculate_risk e)))) tr5)
      fun db tr6 =>
    step (doLog env "dbscan" "SUCCESS" records.length none tr6) fun _ tr7 =>
    step (liftCall (env.isoFit
        (records.map (fun e => prepare_features_row e (calculate_risk e)))) tr7)
      fun outl tr8 =>
    step (doLog env "isolation_forest" "SUCCESS" records.length none tr8) fun _ tr9 =>
    step (liftCall (env.snapshotsAt (prevSnapshotDate env.today)) tr9) fun prev tr10 =>
    step (doUpsertSnapshots env
        ((groupRows (mkScoredRows records km db outl)).map (snapshotRow prev env.today))
        tr10) fun _ tr11 =>
    step (doLog env "drift" "SUCCESS"
        ((groupRows (mkScoredRows records km db outl)).map (snapshotRow prev env.today)).length
        none tr11) fun _ tr12 =>
    step (doLog env "pipeline" "SUCCESS" records.length none tr12) fun _ tr13 =>
    .ok (0, tr13)

/-- `run` (lines 171-292): on success return the exit code 0 from the
`try:` block; on any exception, attempt one best-effort FAILED audit write
(its own failure swallowed by the inner `except: pass`) and return 1. -/
def runPipeline (env : Env) : Nat × Trace :=
  match pipelineTry env with
  | .ok (code, tr) => (code, tr)
  | .error (e, tr) => (1, (logStage env tr "pipeline" "FAILED" 0 (some e)).1)

/-- The wall clock never runs backwards across the successive `now()`
readings of one run. -/
def ClockMono (env : Env) : Prop := ∀ i j : Nat, i ≤ j → env.clock i ≤ env.clock j

/-- Timing facts about one stored audit record: it carries the run's start
timestamp, its duration is finish minus start, and its finish timestamp is
one of the first `n` clock readings. -/
def AuditTimeOK (env : Env) (n : Nat) (a : AuditRecord) : Prop :=
  a.startedAt = env.t0 ∧ a.durationMs = a.finishedAt - a.startedAt ∧
  ∃ j, j < n ∧ a.finishedAt = env.clock j

/-- Timing invariant of a trace: every audit record satisfies
`AuditTimeOK`, and under a monotone clock the stored durations are
non-decreasing in insertion order. -/
def TimeInv (env : Env) (tr : Trace) : Prop :=
  (∀ a ∈ tr.audits, AuditTimeOK env tr.nAudit a) ∧
  (ClockMono env → List.Chain' (fun a b => a.durationMs ≤ b.durationMs) tr.audits)

/-- Invariant maintained throughout the `try:` block: all stored audit
records so far are SUCCESS records, and the timing invariant holds. -/
def RunInv (env : Env) (tr : Trace) : Prop :=
  (∀ a ∈ tr.audits, a.status = "SUCCESS") ∧ TimeInv env tr

/-- A property of the trace at the end of a computation, whether it
returned or raised. -/
def OutcomeP {α : Type} (P : Trace → Prop) :
    Except (String × Trace) (α × Trace) → Prop
  | .error p => P p.2
  | .ok p => P p.2

lemma outcomeP_step {α β : Type} {P : Trace → Prop}
    {x : Except (String × Trace) (α × Trace)}
    {f : α → Trace → Except (String × Trace) (β × Trace)}
    (hx : OutcomeP P x) (hf : ∀ a tr, P tr → OutcomeP P (f a tr)) :
    OutcomeP P (step x f) := by
  cases x with
  | error e => exact hx
  | ok v => exact hf v.1 v.2 hx

lemma outcomeP_liftCall {α : Type} {P : Trace → Prop} (x : Except String α)
    (tr : Trace) (h : P tr) : OutcomeP P (liftCall x tr) := by
  cases x <;> exact h

lemma outcomeP_doLog {P : Trace → Prop} (env : Env) (s st : String) (p : Nat)
    (err : Option String) (tr : Trace)
    (hP : P (logStage env tr s st p err).1) :
    OutcomeP P (doLog env s st p err tr) := by
  unfold doLog
  cases hls : logStage env tr s st p err with
  | mk tr2 r =>
    rw [hls] at hP
    cases r with
    | none => exact hP
    | some e => exact hP

lemma statuses_append_audit (env : Env) (tr : Trace) (s : String) (p : Nat)
    (err : Option String) (h : ∀ a ∈ tr.audits, a.status = "SUCCESS") :
    ∀ a ∈ (tr.audits ++
        [({ stage := s, status := "SUCCESS", startedAt := env.t0,
            finishedAt := env.clock tr.nAudit,
            durationMs := env.clock tr.nAudit - env.t0,
            processed := p, errorMessage := err } : AuditRecord)]),
      a.status = "SUCCESS" := by
  intro a ha
  rcases List.mem_append.mp ha with ha | ha
  · exact h a ha
  · rw [List.mem_singleton.mp ha]

lemma logStage_fst_status (env : Env) (tr : Trace) (s : String) (p : Nat)
    (err : Option String) (h : ∀ a ∈ tr.audits, a.status = "SUCCESS") :
    ∀ a ∈ (logStage env tr s "SUCCESS" p err).1.audits, a.status = "SUCCESS" := by
  unfold logStage
  cases env.auditRes tr.nAudit with
  | none => exact statuses_append_audit env tr s p err h
  | some e => exact h

lemma timeInv_append_audit (env : Env) (tr : Trace) (s st : String) (p : Nat)
    (err : Option String) (h : TimeInv env tr) :
    TimeInv env { tr with
      nAudit := tr.nAudit + 1,
      audits := tr.audits ++
        [{ stage := s, status := st, startedAt := env.t0,
           finishedAt := env.clock tr.nAudit,
           durationMs := env.clock tr.nAudit - env.t0,
           processed := p, errorMessage := err }] } := by
  refine ⟨fun a ha => ?_, fun hm => ?_⟩
  · show AuditTimeOK env (tr.nAudit + 1) a
    rcases List.mem_append.mp ha with ha | ha
    · obtain ⟨h1, h2, j, hj, h3⟩ := h.1 a ha
      exact ⟨h1, h2, j, by omega, h3⟩
    · rw [List.mem_singleton.mp ha]
      exact ⟨rfl, rfl, tr.nAudit, by omega, rfl⟩
  · refine List.chain'_append.mpr ⟨h.2 hm, List.chain'_singleton _, ?_⟩
    intro x hx y hy
    obtain ⟨h1, h2, j, hj, h3⟩ := h.1 x (List.mem_of_mem_getLast? hx)
    have hy2 := Option.mem_some_iff.mp
      (show y ∈ some (⟨s, st, env.t0, env.clock tr.nAudit,
        env.clock tr.nAudit - env.t0, p, err⟩ : AuditRecord) from hy)
    subst hy2
    show x.durationMs ≤ env.clock tr.nAudit - env.t0
    rw [h2, h3, h1]
    exact sub_le_sub_right (hm j tr.nAudit (le_of_lt hj)) _

lemma timeInv_bump (env : Env) (tr : Trace) (h : TimeInv env tr) :
    TimeInv env { tr with nAudit := tr.nAudit + 1 } := by
  refine ⟨fun a ha => ?_, h.2⟩
  show AuditTimeOK env (tr.nAudit + 1) a
  obtain ⟨h1, h2, j, hj, h3⟩ := h.1 a ha
  exact ⟨h1, h2, j, by omega, h3⟩

lemma logStage_fst_timeInv (env : Env) (tr : Trace) (s st : String) (p : Nat)
    (err : Option String) (h : TimeInv env tr) :
    TimeInv env (logStage env tr s st p err).1 := by
  unfold logStage
  cases env.auditRes tr.nAudit with
  | none => exact timeInv_append_audit env tr s st p err h
  | some e => exact timeInv_bump env tr h

lemma outcomeP_doLog_runInv (env : Env) (s : String) (p : Nat) (err : Option String)
    (tr : Trace) (h : RunInv env tr) :
    OutcomeP (RunInv env) (doLog env s "SUCCESS" p err tr) :=
  outcomeP_doLog env s "SUCCESS" p err tr
    ⟨logStage_fst_status env tr s p err h.1,
     logStage_fst_timeInv env tr s "SUCCESS" p err h.2⟩

lemma outcomeP_doUpsertProfiles (env : Env) (rows : List (String × ℚ)) (tr : Trace)
    (h : RunInv env tr) : OutcomeP (RunInv env) (doUpsertProfiles env rows tr) := by
  unfold doUpsertProfiles
  split
  · exact h
  · split
    · exact h
    · exact h

lemma outcomeP_doUpsertSnapshots (env : Env) (rows : List SnapshotRow) (tr : Trace)
    (h : RunInv env tr) : OutcomeP (RunInv env) (doUpsertSnapshots env rows tr) := by
  unfold doUpsertSnapshots
  split
  · exact h
  · split
    · exact h
    · exact h

lemma runInv_empty (env : Env) : RunInv env {} :=
  ⟨by simp [Trace.audits], by simp [TimeInv, Trace.audits]⟩

/-- The `try:` block maintains `RunInv` whether it returns or raises: every
audit record it stored is a SUCCESS record with the shared start timestamp
and run-relative duration. -/
lemma pipelineTry_inv (env : Env) : OutcomeP (RunInv env) (pipelineTry env) := by
  unfold pipelineTry
  refine outcomeP_step (outcomeP_liftCall _ _ (runInv_empty env)) ?_
  intro records tr hP
  cases records with
  | nil =>
    simp only [List.isEmpty_nil, if_true]
    exact outcomeP_step (outcomeP_doLog_runInv env _ _ _ _ hP) (fun _ tr2 h2 => h2)
  | cons r rs =>
    simp only [List.isEmpty_cons, Bool.false_eq_true, if_false]
    refine outcomeP_step (outcomeP_doUpsertProfiles env _ _ hP) ?_
    intro _ tr2 h2
    refine outcomeP_step (outcomeP_doLog_runInv env _ _ _ _ h2) ?_
    intro _ tr3 h3
    refine outcomeP_step (outcomeP_liftCall _ _ h3) ?_
    intro km tr4 h4
    refine outcomeP_step (outcomeP_doLog_runInv env _ _ _ _ h4) ?_
    intro _ tr5 h5
    refine outcomeP_step (outcomeP_liftCall _ _ h5) ?_
    intro db tr6 h6
    refine outcomeP_step (outcomeP_doLog_runInv env _ _ _ _ h6) ?_
    intro _ tr7 h7
    refine outcomeP_step (outcomeP_liftCall _ _ h7) ?_
    intro outl tr8 h8
    refine outcomeP_step (outcomeP_doLog_runInv env _ _ _ _ h8) ?_
    intro _ tr9 h9
    refine outcomeP_step (outcomeP_liftCall _ _ h9) ?_
    intro prev tr10 h10
    refine outcomeP_step (outcomeP_doUpsertSnapshots env _ _ h10) ?_
    intro _ tr11 h11
    refine outcomeP_step (outcomeP_doLog_runInv env _ _ _ _ h11) ?_
    intro _ tr12 h12
    refine outcomeP_step (outcomeP_doLog_runInv env _ _ _ _ h12) ?_
    intro _ tr13 h13
    exact h13

/-- C7: when the loaded population is empty, the run logs exactly one
SUCCESS audit record with `processed_records = 0`, performs no risk-score
upsert and no snapshot upsert, and exits with status 0. -/
theorem c7_empty_population (env : Env)
    (hsel : env.selectProfiles = .ok [])
    (haud : env.auditRes 0 = none) :
    runPipeline env =
      (0, { nAudit := 1,
            audits := [{ stage := "pipeline", status := "SUCCESS", startedAt := env.t0,
                         finishedAt := env.clock 0, durationMs := env.clock 0 - env.t0,
                         processed := 0, errorMessage := none }],
            scoreWrites := [], snapshotWrites := [] }) := by
  unfold runPipeline pipelineTry
  rw [hsel]
  simp [step, liftCall, doLog, logStage, haud]

/-- A fully healthy environment with no population, used to exercise the
empty-input path and the audit-timing theorem concretely. -/
def demoEnv : Env :=
  { selectProfiles := .ok [],
    snapshotsAt := fun _ => .ok [],
    upsertProfilesRes := none,
    upsertSnapshotsRes := none,
    auditRes := fun _ => none,
    kmeansFit := fun _ _ => .ok [],
    dbscanFit := fun _ _ _ => .ok [],
    isoFit := fun _ => .ok [],
    today := 20500, t0 := 1000, clock := fun i => 1000 + (i : ℤ) + 1 }

/-- C7 witness: the empty-population run evaluated in a concrete healthy
environment. -/
theorem c7_empty_population_witness :
    runPipeline demoEnv =
      (0, { nAudit := 1,
            audits := [{ stage := "pipeline", status := "SUCCESS",
                         startedAt := demoEnv.t0, finishedAt := demoEnv.clock 0,
                         durationMs := demoEnv.clock 0 - demoEnv.t0,
                         processed := 0, errorMessage := none }],
            scoreWrites := [], snapshotWrites := [] }) :=
  c7_empty_population demoEnv rfl rfl

/-- The best-effort FAILED audit record the exception handler builds for
the original error message `e` over the trace `tr` at the failure point. -/
def failRec (env : Env) (tr : Trace) (e : String) : AuditRecord :=
  { stage := "pipeline", status := "FAILED", startedAt := env.t0,
    finishedAt := env.clock tr.nAudit,
    durationMs := env.clock tr.nAudit - env.t0,
    processed := 0, errorMessage := some e }

lemma logStage_fst_none (env : Env) (tr : Trace) (s st : String) (p : Nat)
    (err : Option String) (h : env.auditRes tr.nAudit = none) :
    (logStage env tr s st p err).1 = { tr with
      nAudit := tr.nAudit + 1,
      audits := tr.audits ++
        [{ stage := s, status := st, startedAt := env.t0,
           finishedAt := env.clock tr.nAudit,
           durationMs := env.clock tr.nAudit - env.t0,
           processed := p, errorMessage := err }] } := by
  unfold logStage
  rw [h]

lemma logStage_fst_some (env : Env) (tr : Trace) (s st : String) (p : Nat)
    (err : Option String) (e2 : String) (h : env.auditRes tr.nAudit = some e2) :
    (logStage env tr s st p err).1 = { tr with nAudit := tr.nAudit + 1 } := by
  unfold logStage
  rw [h]

lemma runPipeline_error (env : Env) (e : String) (tr : Trace)
    (hfail : pipelineTry env = .error (e, tr)) :
    runPipeline env = (1, (logStage env tr "pipeline" "FAILED" 0 (some e)).1) := by
  unfold runPipeline
  rw [hfail]

/-- C8: if any stage of the `try:` block raises (scoring write-back,
clustering, anomaly detection, aggregation, or an audit insert), the run
aborts with exit status 1, performs no further score or snapshot writes,
keeps the already-written audit records, and attempts at most one FAILED
audit record — which carries the original error message, and whose own
failure is swallowed without changing the exit status. -/
theorem c8_failure_handling (env : Env) (e : String) (tr : Trace)
    (hfail : pipelineTry env = .error (e, tr)) :
    (runPipeline env).1 = 1 ∧
    (runPipeline env).2.scoreWrites = tr.scoreWrites ∧
    (runPipeline env).2.snapshotWrites = tr.snapshotWrites ∧
    (runPipeline env).2.audits.take tr.audits.length = tr.audits ∧
    (runPipeline env).2.audits.length ≤ tr.audits.length + 1 ∧
    ((runPipeline env).2.audits.filter (fun a => a.status == "FAILED")).length ≤ 1 ∧
    ((runPipeline env).2.audits.filter (fun a => a.status == "FAILED")).all
      (fun a => a.errorMessage == some e && a.stage == "pipeline") = true := by
  have hinv : RunInv env tr := by
    have h := pipelineTry_inv env
    rw [hfail] at h
    exact h
  have hfilter : tr.audits.filter (fun a => a.status == "FAILED") = [] := by
    rw [List.filter_eq_nil_iff]
    intro a ha
    simp [hinv.1 a ha]
  have hrun := runPipeline_error env e tr hfail
  cases henv : env.auditRes tr.nAudit with
  | none =>
    rw [hrun, logStage_fst_none env tr _ _ _ _ henv]
    refine ⟨rfl, rfl, rfl, List.take_left _ _, ?_, ?_, ?_⟩
    · show (tr.audits ++ [failRec env tr e]).length ≤ tr.audits.length + 1
      simp
    · show ((tr.audits ++ [failRec env tr e]).filter
        (fun a => a.status == "FAILED")).length ≤ 1
      rw [List.filter_append, hfilter]
      simp [failRec]
    · show ((tr.audits ++ [failRec env tr e]).filter
        (fun a => a.status == "FAILED")).all
          (fun a => a.errorMessage == some e && a.stage == "pipeline") = true
      rw [List.filter_append, hfilter]
      simp [failRec]
  | some e2 =>
    rw [hrun, logStage_fst_some env tr _ _ _ _ e2 henv]
    refine ⟨rfl, rfl, rfl, ?_, ?_, ?_, ?_⟩
    · show tr.audits.take tr.audits.length = tr.audits
      simp
    · show tr.audits.length ≤ tr.audits.length + 1
      omega
    · show (tr.audits.filter (fun a => a.status == "FAILED")).length ≤ 1
      rw [hfilter]
      simp
    · show ((tr.audits.filter (fun a => a.status == "FAILED")).all
        (fun a => a.errorMessage == some e && a.stage == "pipeline")) = true
      rw [hfilter]
      simp

/-- The failing environment for the C8 witness: one profile loads, then the
risk-score write-back raises with message "boom" before any audit record
is written. -/
def c8FailEnv : Env :=
  { demoEnv with
      selectProfiles := .ok [{ id := "e1" }],
      upsertProfilesRes := some "boom" }

/-- C8 witness: in `c8FailEnv` the run exits 1 having attempted exactly the
one FAILED audit record carrying "boom", with no score or snapshot writes. -/
theorem c8_failure_handling_witness :
    (runPipeline c8FailEnv).1 = 1 ∧
    (runPipeline c8FailEnv).2.scoreWrites = ({} : Trace).scoreWrites ∧
    (runPipeline c8FailEnv).2.snapshotWrites = ({} : Trace).snapshotWrites ∧
    (runPipeline c8FailEnv).2.audits.take ({} : Trace).audits.length = ({} : Trace).audits ∧
    (runPipeline c8FailEnv).2.audits.length ≤ ({} : Trace).audits.length + 1 ∧
    ((runPipeline c8FailEnv).2.audits.filter (fun a => a.status == "FAILED")).length ≤ 1 ∧
    ((runPipeline c8FailEnv).2.audits.filter (fun a => a.status == "FAILED")).all
      (fun a => a.errorMessage == some "boom" && a.stage == "pipeline") = true :=
  c8_failure_handling c8FailEnv "boom" {} rfl

/-- C10: every audit record a run writes carries the run's start timestamp
as `started_at`, and its `duration_ms` is the time from run start to that
record's `finished_at` (not the individual stage's duration); under a
monotone clock the stored durations are therefore non-decreasing in
insertion order. -/
theorem c10_audit_run_relative_durations (env : Env) (hmono : ClockMono env) :
    ((runPipeline env).2.audits.all
      (fun a => a.startedAt == env.t0 &&
        a.durationMs == a.finishedAt - a.startedAt)) = true ∧
    List.Chain' (fun a b => a.durationMs ≤ b.durationMs)
      ((runPipeline env).2.audits) := by
  have htime : TimeInv env (runPipeline env).2 := by
    unfold runPipeline
    cases hp : pipelineTry env with
    | ok v =>
      have h := pipelineTry_inv env
      rw [hp] at h
      exact h.2
    | error p =>
      have h := pipelineTry_inv env
      rw [hp] at h
      exact logStage_fst_timeInv env p.2 "pipeline" "FAILED" 0 (some p.1) h.2
  constructor
  · rw [List.all_eq_true]
    intro a ha
    obtain ⟨h1, h2, _⟩ := htime.1 a ha
    simp [h1, h2]
  · exact htime.2 hmono

/-- C10 witness: in the concrete environment `demoEnv` (strictly increasing
clock) the stored audit records all carry the shared start timestamp and
run-relative, non-decreasing durations. -/
theorem c10_audit_run_relative_durations_witness :
    ((runPipeline demoEnv).2.audits.all
      (fun a => a.startedAt == demoEnv.t0 &&
        a.durationMs == a.finishedAt - a.startedAt)) = true ∧
    List.Chain' (fun a b => a.durationMs ≤ b.durationMs)
      ((runPipeline demoEnv).2.audits) :=
  c10_audit_run_relative_durations demoEnv (by
    intro i j hij
    show 1000 + (i : ℤ) + 1 ≤ 1000 + (j : ℤ) + 1
    omega)

end Aera
